import Mathlib

set_option maxRecDepth 10000

/-!
Shallow embedding of the ict_assistant_multi_turn_evaluation repository
(src/types.py, src/user_simulator.py, src/assistant_client.py,
src/evaluator.py, src/simulation_runner.py).

Python floats are modelled as rationals, Python ints as integers.
Python strings are modelled as Lean strings; the string helpers below
re-implement the Python string operations used by the code (slicing is by
code points, as in Python).  Wall-clock quantities (datetime.now()
timestamps, measured response times) are outside the pure model and are
omitted.  Python's stdlib `json.loads` and `str()` are external to the
repository and are taken as parameters (`parse`, `pyStr`) of the decoder.
-/

/-! ### Python string primitives (on code-point lists) -/

/-- `startsWithSeq pat l` : does `l` start with `pat`? (Python `str.startswith`). -/
def startsWithSeq : List Char → List Char → Bool
  | [], _ => true
  | _ :: _, [] => false
  | a :: as, b :: bs => a == b && startsWithSeq as bs

/-- `hasSeq pat l` : does `pat` occur contiguously in `l`? (Python `in`). -/
def hasSeq (pat : List Char) : List Char → Bool
  | [] => startsWithSeq pat []
  | c :: cs => startsWithSeq pat (c :: cs) || hasSeq pat cs

/-- ASCII whitespace as stripped by Python `str.strip()`. -/
def isPySpace (c : Char) : Bool :=
  c == ' ' || c == '\t' || c == '\n' || c == '\r' || c == '\x0b' || c == '\x0c'

/-- Strip leading and trailing whitespace (Python `str.strip()`). -/
def trimSeq (l : List Char) : List Char :=
  ((l.dropWhile isPySpace).reverse.dropWhile isPySpace).reverse

/-- Strip all leading and trailing occurrences of `c` (Python `str.strip(c)`). -/
def stripAllChar (c : Char) (l : List Char) : List Char :=
  ((l.dropWhile (· == c)).reverse.dropWhile (· == c)).reverse

def pyTrim (s : String) : String := String.mk (trimSeq s.toList)

def pyStartsWith (s p : String) : Bool := startsWithSeq p.toList s.toList

/-- Python slicing `s[n:]` (by code points). -/
def pyDropChars (n : ℕ) (s : String) : String := String.mk (s.toList.drop n)

def pyLower (s : String) : String := String.mk (s.toList.map Char.toLower)

/-- Python `sub in s`. -/
def pyHasSub (s sub : String) : Bool := hasSeq sub.toList s.toList

/-- Python `str.split('\n')` (keeps empty pieces). -/
def splitLinesSeq : List Char → List (List Char)
  | [] => [[]]
  | c :: cs =>
    match splitLinesSeq cs with
    | [] => [[]]
    | h :: t => if c == '\n' then [] :: h :: t else (c :: h) :: t

def pySplitNl (s : String) : List String := (splitLinesSeq s.toList).map String.mk

/-- Left-to-right, non-overlapping replacement; fuelled by the input length
(the fuel is always sufficient for a non-empty pattern, the only case the
source uses).  Python `str.replace(pat, rep)`. -/
def replaceFuel (pat rep : List Char) : ℕ → List Char → List Char
  | 0, l => l
  | _ + 1, [] => []
  | n + 1, c :: cs =>
    if startsWithSeq pat (c :: cs) && !pat.isEmpty then
      rep ++ replaceFuel pat rep n (List.drop pat.length (c :: cs))
    else c :: replaceFuel pat rep n cs

def pyReplaceAll (s pat rep : String) : String :=
  String.mk (replaceFuel pat.toList rep.toList s.toList.length s.toList)

/-! ### Numeric-token extraction (re.search(r'[\d.]+') plus float()) -/

/-- Value of a digit list (most significant first). -/
def digitsVal (l : List Char) : ℕ := l.foldl (fun a c => 10 * a + (c.toNat - 48)) 0

def isNumRunChar (c : Char) : Bool := c.isDigit || c == '.'

/-- First maximal run of characters in `[0-9.]`, as found by
`re.search(r'[\d.]+', line)`. -/
def findNumRunSeq : List Char → Option (List Char)
  | [] => none
  | c :: cs =>
    if isNumRunChar c then some (c :: cs.takeWhile isNumRunChar) else findNumRunSeq cs

def pyFindNumRun (s : String) : Option String := (findNumRunSeq s.toList).map String.mk

/-- Python `float(t)` on a token made only of digits and dots: it succeeds
exactly when the token has at least one digit and at most one dot. -/
def pyFloatOfRun (s : String) : Option ℚ :=
  let cs := s.toList
  if cs.any (fun c => c.isDigit) && cs.count '.' ≤ 1 then
    let ip := cs.takeWhile (fun c => c ≠ '.')
    let fp := (cs.dropWhile (fun c => c ≠ '.')).drop 1
    some ((digitsVal ip : ℚ) + (digitsVal fp : ℚ) / (10 : ℚ) ^ fp.length)
  else none

/-! ### JSON values (results of Python's json.loads) -/

inductive JVal where
  | null : JVal
  | bool (b : Bool) : JVal
  | num (q : ℚ) : JVal
  | str (s : String) : JVal
  | arr (elems : List JVal) : JVal
  | obj (fields : List (String × JVal)) : JVal

/-- Dict lookup (`d.get(k)`); for duplicate keys `json.loads` keeps the last. -/
def lookupLast (k : String) : List (String × JVal) → Option JVal
  | [] => none
  | (k', v) :: rest =>
    match lookupLast k rest with
    | some r => some r
    | none => if k' == k then some v else none

def pyGet (j : JVal) (k : String) : Option JVal :=
  match j with
  | .obj fs => lookupLast k fs
  | _ => none

/-- Python truthiness of a json.loads result. -/
def pyTruthy : JVal → Bool
  | .null => false
  | .bool b => b
  | .num q => decide (q ≠ 0)
  | .str s => decide (s ≠ "")
  | .arr l => !l.isEmpty
  | .obj l => !l.isEmpty

/-- Python `v == lit` for a string literal `lit` and an optional value `v`
(`None == lit` and non-string values compare unequal). -/
def isStrVal (v : Option JVal) (lit : String) : Bool :=
  match v with
  | some (.str t) => t == lit
  | _ => false

/-! ### Data model (src/types.py) -/

inductive Role where
  | user : Role
  | assistant : Role
deriving DecidableEq

/-- `Message` (the `timestamp` field is wall clock and is not modelled). -/
structure Message where
  role : Role
  content : String
  turn_number : ℤ
deriving DecidableEq

structure UserPersona where
  id : String
  name : String
  description : String
  patience : ℚ
  expertise : ℚ
  verbosity : ℚ
  frustration_tolerance : ℚ
  clarity_of_communication : ℚ
  technical_level : ℚ
deriving DecidableEq

structure ConversationGoal where
  id : String
  description : String
  success_criteria : List String
  expected_turns : Option ℤ
  domain : String
  complexity : String
deriving DecidableEq

/-- `ConversationState` (the free-form `context` dict is not modelled;
no code the claims touch reads or writes it). -/
structure ConversationState where
  messages : List Message
  current_turn : ℤ
  goal_progress : ℚ
  user_satisfaction : ℚ
  frustration_level : ℚ
deriving DecidableEq

structure EvaluationMetrics where
  goal_achieved : Bool
  total_turns : ℤ
  average_response_time : ℚ
  user_satisfaction_score : ℚ
  clarity_score : ℚ
  clarity_reason : Option String
  relevance_score : ℚ
  relevance_reason : Option String
  completeness_score : ℚ
  completeness_reason : Option String
  politeness_score : ℚ
  politeness_reason : Option String
  frustration_incidents : ℤ
  error_rate : ℚ
deriving DecidableEq

/-! ### UserSimulator (src/user_simulator.py) -/

/-- Python `x or d` on `Optional[int]`: `None` and `0` are falsy. -/
def pyOrI (o : Option ℤ) (d : ℤ) : ℤ :=
  match o with
  | none => d
  | some n => if n = 0 then d else n

/-- The state built in `UserSimulator.__init__`. -/
def initial_state : ConversationState :=
  { messages := []
    current_turn := 0
    goal_progress := 0
    user_satisfaction := 1/2
    frustration_level := 0 }

/-- `UserSimulator._update_goal_progress`. -/
def update_goal_progress (g : ConversationGoal) (s : ConversationState) : ConversationState :=
  let progress_per_turn : ℚ := 1 / ((pyOrI g.expected_turns 10 : ℤ) : ℚ)
  { s with goal_progress := min 1 (s.goal_progress + progress_per_turn) }

/-- `UserSimulator._update_frustration_level`. -/
def update_frustration_level (p : UserPersona) (g : ConversationGoal)
    (s : ConversationState) : ConversationState :=
  let turn_ratio : ℚ := (s.current_turn : ℚ) / ((pyOrI g.expected_turns 10 : ℤ) : ℚ)
  let f1 := if turn_ratio > 3/2
    then min 1 (s.frustration_level + (1 - p.patience) * (1/10))
    else s.frustration_level
  let f2 := if s.user_satisfaction < 3/10
    then min 1 (f1 + (1 - p.frustration_tolerance) * (3/20))
    else f1
  { s with frustration_level := f2 }

/-- `UserSimulator._update_state`: append the assistant message (at the
current turn number), advance the turn, then update progress and
frustration. -/
def update_state (p : UserPersona) (g : ConversationGoal) (assistant_message : String)
    (s : ConversationState) : ConversationState :=
  let s1 := { s with
    messages := s.messages ++ [⟨Role.assistant, assistant_message, s.current_turn⟩]
    current_turn := s.current_turn + 1 }
  update_frustration_level p g (update_goal_progress g s1)

/-- `UserSimulator.add_user_message`. -/
def add_user_message (content : String) (s : ConversationState) : ConversationState :=
  { s with messages := s.messages ++ [⟨Role.user, content, s.current_turn⟩] }

/-- `UserSimulator.add_assistant_message`. -/
def add_assistant_message (content : String) (s : ConversationState) : ConversationState :=
  { s with messages := s.messages ++ [⟨Role.assistant, content, s.current_turn⟩] }

/-- `UserSimulator.update_satisfaction`. -/
def update_satisfaction (value : ℚ) (s : ConversationState) : ConversationState :=
  { s with user_satisfaction := max 0 (min 1 value) }

/-- `UserSimulator.should_stop`. -/
def should_stop (g : ConversationGoal) (s : ConversationState) : Bool :=
  decide (s.current_turn ≥ (pyOrI g.expected_turns 10) * 2)
    || decide (s.frustration_level > 0.9)
    || decide (s.goal_progress ≥ 1)

/-- `UserSimulator._parse_simulated_response`, line loop.  A `SATISFACTION:`
line whose extracted `[\d.]+` token is not a valid float makes `float()`
raise `ValueError`, modelled as `none`. -/
def parse_sim_loop : List String → String × Bool × ℚ → Option (String × Bool × ℚ)
  | [], st => some st
  | l :: ls, (m, c, s) =>
    if pyStartsWith l "MESSAGE:" then
      parse_sim_loop ls (pyTrim (pyReplaceAll l "MESSAGE:" ""), c, s)
    else if pyStartsWith l "CONTINUE:" then
      parse_sim_loop ls (m, pyHasSub (pyLower l) "true", s)
    else if pyStartsWith l "SATISFACTION:" then
      match pyFindNumRun l with
      | none => parse_sim_loop ls (m, c, s)
      | some t =>
        match pyFloatOfRun t with
        | none => none
        | some v => parse_sim_loop ls (m, c, v)
    else parse_sim_loop ls (m, c, s)

/-- `UserSimulator._parse_simulated_response`. -/
def parse_simulated_response (content : String) : Option (String × Bool × ℚ) :=
  parse_sim_loop (pySplitNl content) ("", true, 1/2)

/-- One interaction step applied to the simulator state: either the state
part of `generate_response` ingesting an assistant message
(`_update_state`), or a clamped `update_satisfaction` call. -/
inductive SimOp where
  | ingest (msg : String) : SimOp
  | setSatisfaction (v : ℚ) : SimOp

def applyOp (p : UserPersona) (g : ConversationGoal) : SimOp → ConversationState → ConversationState
  | .ingest msg, s => update_state p g msg s
  | .setSatisfaction v, s => update_satisfaction v s

/-- Trace of states visited while applying a sequence of operations. -/
def statesFrom (p : UserPersona) (g : ConversationGoal) :
    List SimOp → ConversationState → List ConversationState
  | [], s => [s]
  | op :: ops, s => s :: statesFrom p g ops (applyOp p g op s)

/-- Ingest a sequence of assistant messages (`_update_state` repeatedly). -/
def ingestAll (p : UserPersona) (g : ConversationGoal) :
    List String → ConversationState → ConversationState
  | [], s => s
  | msg :: rest, s => ingestAll p g rest (update_state p g msg s)

/-! ### AssistantClient (src/assistant_client.py)

`send_message` drives the HTTP request through the `requests` library and
decodes the streamed body line by line.  The transport interaction is an
input of the model (`RequestOutcome`); `json.loads` and `str()` are the
`parse` and `pyStr` parameters.  Python dynamic errors (`AttributeError` /
`TypeError` on non-dict payloads) abort the line loop and are caught by the
`except Exception as parse_error` handler, modelled by `LineStep.exc`. -/

/-- The double-quote character. -/
def quoteChar : Char := Char.ofNat 34

def quoteStr : String := String.mk [quoteChar]

def quote2Str : String := String.mk [quoteChar, quoteChar]

inductive LineStep where
  | cont (fr : String) : LineStep
  | errStop (fr : String) (e : JVal) : LineStep
  | exc : LineStep

/-- One iteration of the `for line in response.iter_lines()` body, acting on
the accumulated `full_response`. -/
def process_line (parse : String → Option JVal) (pyStr : JVal → String)
    (fr : String) (line : String) : LineStep :=
  if line = "" then .cont fr
  else if pyStartsWith line "0:" then
    let content := pyTrim (pyDropChars 2 line)
    if content ≠ "" ∧ content ≠ quoteStr ∧ content ≠ quote2Str then
      match parse content with
      | some (.str s) => .cont (fr ++ s)
      | some j => .cont (fr ++ pyStr j)
      | none => .cont (fr ++ String.mk (stripAllChar quoteChar content.toList))
    else .cont fr
  else if pyStartsWith line "data: " then
    let data := pyTrim (pyDropChars 6 line)
    if data ≠ "" ∧ data ≠ "[DONE]" then
      match parse data with
      | none => if !pyStartsWith data "\x7b" then .cont (fr ++ data) else .cont fr
      | some j =>
        match j with
        | .obj fs =>
          let t := pyGet (.obj fs) "type"
          if isStrVal t "error" then
            .errStop fr ((pyGet (.obj fs) "errorText").getD (.str "Unknown error"))
          else if isStrVal t "text-delta" then
            match (pyGet (.obj fs) "delta").getD (.str "") with
            | .str s => .cont (fr ++ s)
            | _ => .exc
          else if isStrVal t "text" then
            match (pyGet (.obj fs) "text").getD (.str "") with
            | .str s => .cont (fr ++ s)
            | _ => .exc
          else if (pyGet (.obj fs) "choices").isSome
              && pyTruthy ((pyGet (.obj fs) "choices").getD .null) then
            match pyGet (.obj fs) "choices" with
            | some (.arr (c0 :: _)) =>
              match c0 with
              | .obj cfs =>
                match (pyGet (.obj cfs) "delta").getD (.obj []) with
                | .obj dfs =>
                  match pyGet (.obj dfs) "content" with
                  | some (.str s) => .cont (fr ++ s)
                  | some _ => .exc
                  | none => .cont fr
                | .str ds => if pyHasSub ds "content" then .exc else .cont fr
                | .arr dl =>
                  if dl.any (fun x => match x with | .str s => s == "content" | _ => false)
                  then .exc else .cont fr
                | _ => .exc
              | _ => .exc
            | _ => .exc
          else .cont fr
        | _ => .exc
    else .cont fr
  else if pyTrim line ≠ "" ∧ pyStartsWith line ":" = false then
    match parse line with
    | some (.str s) => .cont (fr ++ s)
    | some j => .cont (fr ++ pyStr j)
    | none => .cont (fr ++ line)
  else .cont fr

inductive LoopResult where
  | ok (fr : String) : LoopResult
  | errBreak (fr : String) (e : JVal) : LoopResult
  | exc : LoopResult

/-- The whole `for line in response.iter_lines()` loop: `errStop` breaks,
`exc` aborts into the surrounding `except Exception` handler. -/
def loop_lines (parse : String → Option JVal) (pyStr : JVal → String) :
    String → List String → LoopResult
  | fr, [] => .ok fr
  | fr, l :: ls =>
    match process_line parse pyStr fr l with
    | .cont fr' => loop_lines parse pyStr fr' ls
    | .errStop fr' e => .errBreak fr' e
    | .exc => .exc

/-- Decoding of a successful (`response.ok`) streamed response: the line
loop, the empty-accumulation fallback to `response.text`, the stream-error
return, and the final `full_response.strip() or 'No response received'`. -/
def decode_stream (parse : String → Option JVal) (pyStr : JVal → String)
    (lines : List String) (body : String) : String × Option JVal :=
  match loop_lines parse pyStr "" lines with
  | .exc =>
    -- except-branch: `full_response = response.text`; no stream error was set
    let fr := body
    (if pyTrim fr = "" then "No response received" else pyTrim fr, none)
  | .errBreak _ e =>
    -- the empty-accumulation fallback still runs, but the error return
    -- discards the accumulated text: `return '', response_time, error_message`
    ("", some e)
  | .ok fr =>
    let fr2 := if pyTrim fr = "" then (if body ≠ "" then body else fr) else fr
    (if pyTrim fr2 = "" then "No response received" else pyTrim fr2, none)

/-- The transport-level outcome of the `requests.post` call (an input of the
model): a timeout, another transport exception whose `str()` is `msg`, or a
response with its `ok` flag, status code, body text and body lines. -/
inductive RequestOutcome where
  | timeout : RequestOutcome
  | exn (msg : String) : RequestOutcome
  | resp (ok : Bool) (status : ℤ) (body : String) (lines : List String) : RequestOutcome

/-- `AssistantClient.send_message`, returning `(response, error)`; the
wall-clock `response_time_ms` component is not modelled.  On a non-ok
status the code raises "API responded with status {code}: {body}" inside a
`try` whose own `except Exception` catches that very exception and raises
the status-only message instead, so the body text never reaches the
returned error value. -/
def send_message (parse : String → Option JVal) (pyStr : JVal → String)
    (o : RequestOutcome) : String × Option JVal :=
  match o with
  | .timeout => ("", some (.str "Request timeout"))
  | .exn msg => ("", some (.str msg))
  | .resp ok status body lines =>
    if ok = false then
      ("", some (.str ("API responded with status " ++ toString status)))
    else decode_stream parse pyStr lines body

/-! ### ConversationEvaluator (src/evaluator.py) -/

/-- Python 3 `round()` to an integer: round half to even. -/
def pyRound (q : ℚ) : ℤ :=
  let f := ⌊q⌋
  if q - f < 1/2 then f
  else if q - f > 1/2 then f + 1
  else if f % 2 = 0 then f else f + 1

/-- `ConversationEvaluator._calculate_overall_score` (the `weights` dict is
inlined; the running `score` accumulation mirrors the source). -/
def calculate_overall_score (m : EvaluationMetrics) : ℚ :=
  let s0 : ℚ := 0
  let s1 := s0 + (if m.goal_achieved then 0.20 else 0)
  let s2 := s1 + m.user_satisfaction_score * 0.15
  let s3 := s2 + m.clarity_score * 0.15
  let s4 := s3 + m.relevance_score * 0.15
  let s5 := s4 + m.completeness_score * 0.15
  let s6 := s5 + m.politeness_score * 0.15
  let s7 := s6 - m.error_rate * 0.05
  let s8 := s7 - (m.frustration_incidents : ℚ) * 0.02
  max 0 (min 1 s8)

/-- `ConversationEvaluator.aggregate_metrics`; the empty list raises
`ValueError`, modelled as `none`.  The constructor call passes no reason
fields, so they default to `None`. -/
def aggregate_metrics (l : List EvaluationMetrics) : Option EvaluationMetrics :=
  match l with
  | [] => none
  | _ =>
    let n : ℚ := (l.length : ℚ)
    some
      { goal_achieved := decide ((((l.countP (·.goal_achieved)) : ℚ) / n) ≥ 1/2)
        total_turns := pyRound (((l.map (·.total_turns)).sum : ℚ) / n)
        average_response_time := (l.map (·.average_response_time)).sum / n
        user_satisfaction_score := (l.map (·.user_satisfaction_score)).sum / n
        clarity_score := (l.map (·.clarity_score)).sum / n
        clarity_reason := none
        relevance_score := (l.map (·.relevance_score)).sum / n
        relevance_reason := none
        completeness_score := (l.map (·.completeness_score)).sum / n
        completeness_reason := none
        politeness_score := (l.map (·.politeness_score)).sum / n
        politeness_reason := none
        frustration_incidents := pyRound (((l.map (·.frustration_incidents)).sum : ℚ) / n)
        error_rate := (l.map (·.error_rate)).sum / n }

/-! ### SimulationRunner (src/simulation_runner.py) -/

/-- The state effect of one successful iteration of
`SimulationRunner._run_conversation`'s loop, given the assistant's reply
`resp` and the raw LLM output `llm` that `generate_response` parses:
`add_assistant_message(response)`, then `generate_response(response)`
(which ingests the same text again via `_update_state` and then parses),
then the optional `add_user_message` and the `update_satisfaction` call.
`none` models the iteration aborting in `_parse_simulated_response`. -/
def runner_iteration (p : UserPersona) (g : ConversationGoal)
    (resp llm : String) (s : ConversationState) : Option ConversationState :=
  let s1 := add_assistant_message resp s
  let s2 := update_state p g resp s1
  match parse_simulated_response llm with
  | none => none
  | some (m, _, sat) =>
    let s3 := if m ≠ "" then add_user_message m s2 else s2
    some (update_satisfaction sat s3)

/-! ### Concrete fixtures used by counterexamples and witnesses -/

def persona_half : UserPersona :=
  ⟨"p1", "Pat", "a test persona", 1/2, 1/2, 1/2, 1/2, 1/2, 1/2⟩

def goal_two : ConversationGoal :=
  ⟨"g2", "book a flight", ["booked"], some 2, "general", "simple"⟩

def goal_zero : ConversationGoal :=
  ⟨"g0", "zero expected turns", [], some 0, "general", "simple"⟩

def goal_neg : ConversationGoal :=
  ⟨"gneg", "negative expected turns", [], some (-1), "general", "simple"⟩

def goal_none : ConversationGoal :=
  ⟨"gnone", "no expected turns", [], none, "general", "simple"⟩

/-! ## Claims -/

/-! ### C1: should_stop -/

/-- C1 counterexample: the claim reads the stop threshold as
`2 * (expected_turns if set, else 10)`, but the code computes
`(expected_turns or 10) * 2` with Python truthiness, so a goal whose
`expected_turns` is set to `0` uses `10`: at `expected_turns = 0` and the
initial state (turn 0), the claim's threshold `2 * 0` is already reached,
yet `should_stop` returns `false`. -/
theorem c1_counterexample :
    should_stop goal_zero initial_state = false ∧
      2 * (goal_zero.expected_turns.getD 10) ≤ initial_state.current_turn := by
  constructor
  · with_unfolding_all rfl
  · decide

/-- C1 (amended): for every `ConversationState`, `should_stop` returns true
iff `current_turn >= 2 * (expected_turns if set and nonzero, else 10)`, or
`frustration_level > 0.9`, or `goal_progress >= 1`; in particular it is
true whenever `goal_progress >= 1`, regardless of every other field. -/
theorem c1_should_stop_spec (g : ConversationGoal) (s : ConversationState) :
    (should_stop g s = true ↔
      2 * pyOrI g.expected_turns 10 ≤ s.current_turn ∨
        (0.9 : ℚ) < s.frustration_level ∨ (1 : ℚ) ≤ s.goal_progress) ∧
    ((1 : ℚ) ≤ s.goal_progress → should_stop g s = true) := by
  constructor
  · unfold should_stop
    simp only [Bool.or_eq_true, decide_eq_true_eq, ge_iff_le, gt_iff_lt]
    rw [show pyOrI g.expected_turns 10 * 2 = 2 * pyOrI g.expected_turns 10 from mul_comm _ _,
      or_assoc]
  · intro h
    unfold should_stop
    simp [h]

/-- C1 witness: the claim's own example — `goal_progress = 1.0`,
`frustration_level = 0.0`, `current_turn = 0` — must stop. -/
theorem c1_witness : should_stop goal_none ⟨[], 0, 1, 1/2, 0⟩ = true :=
  (c1_should_stop_spec goal_none ⟨[], 0, 1, 1/2, 0⟩).2 (le_refl 1)

/-! ### C2: goal-progress update -/

/-- C2 counterexample: the claim's increment `1 / max(expected_turns, …)`
would be positive and keep `goal_progress` in `[0,1]` for every goal, but
the code divides by `expected_turns or 10` with no `max`: for a goal with
`expected_turns = -1` a single ingestion moves `goal_progress` from `0` to
`-1`, leaving `[0,1]` (and differing from the claimed increment `1`). -/
theorem c2_counterexample :
    (update_state persona_half goal_neg "m" initial_state).goal_progress = -1 ∧
      ¬ (0 : ℚ) ≤ (update_state persona_half goal_neg "m" initial_state).goal_progress ∧
      (update_state persona_half goal_neg "m" initial_state).goal_progress ≠
        min 1 (initial_state.goal_progress + 1 / ((max (goal_neg.expected_turns.getD 10) 1 : ℤ) : ℚ)) := by
  refine ⟨by with_unfolding_all rfl, ?_, ?_⟩
  · rw [show (update_state persona_half goal_neg "m" initial_state).goal_progress = -1 from
      by with_unfolding_all rfl]
    norm_num
  · rw [show (update_state persona_half goal_neg "m" initial_state).goal_progress = -1 from
      by with_unfolding_all rfl]
    norm_num [initial_state, goal_neg]

lemma pyOrI_pos (g : ConversationGoal) (h : ∀ n, g.expected_turns = some n → 0 < n) :
    0 < pyOrI g.expected_turns 10 := by
  cases hg : g.expected_turns with
  | none => simp [pyOrI]
  | some n =>
    have hn := h n hg
    simp only [pyOrI]
    rw [if_neg (by omega)]
    exact hn

lemma update_state_goal_progress (p : UserPersona) (g : ConversationGoal)
    (msg : String) (s : ConversationState) :
    (update_state p g msg s).goal_progress
      = min 1 (s.goal_progress + 1 / ((pyOrI g.expected_turns 10 : ℤ) : ℚ)) := rfl

lemma update_state_progress_bounds (p : UserPersona) (g : ConversationGoal)
    (hg : ∀ n, g.expected_turns = some n → 0 < n) (msg : String) (s : ConversationState)
    (h0 : 0 ≤ s.goal_progress) (h1 : s.goal_progress ≤ 1) :
    0 ≤ (update_state p g msg s).goal_progress ∧
      (update_state p g msg s).goal_progress ≤ 1 ∧
      s.goal_progress ≤ (update_state p g msg s).goal_progress := by
  have hd : (0 : ℚ) < ((pyOrI g.expected_turns 10 : ℤ) : ℚ) := by
    exact_mod_cast pyOrI_pos g hg
  have hinc : 0 < 1 / ((pyOrI g.expected_turns 10 : ℤ) : ℚ) := by positivity
  rw [update_state_goal_progress]
  refine ⟨le_min (by norm_num) (by linarith), min_le_left _ _, le_min h1 (by linarith)⟩

lemma ingestAll_progress_bounds (p : UserPersona) (g : ConversationGoal)
    (hg : ∀ n, g.expected_turns = some n → 0 < n) (msgs : List String) :
    ∀ s : ConversationState, 0 ≤ s.goal_progress → s.goal_progress ≤ 1 →
      0 ≤ (ingestAll p g msgs s).goal_progress ∧
        (ingestAll p g msgs s).goal_progress ≤ 1 ∧
        s.goal_progress ≤ (ingestAll p g msgs s).goal_progress := by
  induction msgs with
  | nil => exact fun s h0 h1 => ⟨h0, h1, le_refl _⟩
  | cons m rest ih =>
    intro s h0 h1
    obtain ⟨a, b, c⟩ := update_state_progress_bounds p g hg m s h0 h1
    obtain ⟨d, e, f⟩ := ih (update_state p g m s) a b
    exact ⟨d, e, le_trans c f⟩

/-- C2 (amended): each ingestion of an assistant message sets
`goal_progress` to `min 1 (goal_progress + 1 / (expected_turns if set and
nonzero, else 10))`; for every goal whose `expected_turns`, when set, is
positive, `goal_progress` stays in `[0,1]` and is monotonically
non-decreasing across every sequence of ingestions; for a goal with
`expected_turns = 2`, after 5 ingested assistant turns `goal_progress`
equals exactly `1` and `should_stop` fires. -/
theorem c2_goal_progress_spec (p : UserPersona) (g : ConversationGoal)
    (hg : ∀ n, g.expected_turns = some n → 0 < n) (msgs : List String)
    (s : ConversationState) (h0 : 0 ≤ s.goal_progress) (h1 : s.goal_progress ≤ 1) :
    (∀ msg, (update_state p g msg s).goal_progress
        = min 1 (s.goal_progress + 1 / ((pyOrI g.expected_turns 10 : ℤ) : ℚ))) ∧
    (0 ≤ (ingestAll p g msgs s).goal_progress ∧
      (ingestAll p g msgs s).goal_progress ≤ 1 ∧
      s.goal_progress ≤ (ingestAll p g msgs s).goal_progress) ∧
    ((ingestAll persona_half goal_two ["a", "b", "c", "d", "e"] initial_state).goal_progress = 1 ∧
      should_stop goal_two (ingestAll persona_half goal_two ["a", "b", "c", "d", "e"] initial_state)
        = true) := by
  refine ⟨fun msg => update_state_goal_progress p g msg s,
    ingestAll_progress_bounds p g hg msgs s h0 h1,
    by with_unfolding_all rfl, by with_unfolding_all rfl⟩

/-- C2 witness. -/
theorem c2_witness :
    (∀ n : ℤ, goal_two.expected_turns = some n → 0 < n) ∧
      (ingestAll persona_half goal_two ["x"] initial_state).goal_progress ≤ 1 := by
  have hg : ∀ n : ℤ, goal_two.expected_turns = some n → 0 < n := by
    intro n h
    simp [goal_two] at h
    omega
  exact ⟨hg, (c2_goal_progress_spec persona_half goal_two hg ["x"] initial_state
    (le_refl 0) (by norm_num [initial_state])).2.1.2.1⟩

/-! ### C3: frustration monotonicity -/

/-- All six persona traits lie in `[0,1]` (the pydantic field bounds). -/
def traits_in_unit (p : UserPersona) : Prop :=
  (0 ≤ p.patience ∧ p.patience ≤ 1) ∧
    (0 ≤ p.expertise ∧ p.expertise ≤ 1) ∧
    (0 ≤ p.verbosity ∧ p.verbosity ≤ 1) ∧
    (0 ≤ p.frustration_tolerance ∧ p.frustration_tolerance ≤ 1) ∧
    (0 ≤ p.clarity_of_communication ∧ p.clarity_of_communication ≤ 1) ∧
    (0 ≤ p.technical_level ∧ p.technical_level ≤ 1)

instance (p : UserPersona) : Decidable (traits_in_unit p) := by
  unfold traits_in_unit
  infer_instance

lemma min_one_add_step (f a : ℚ) (h0 : 0 ≤ f) (h1 : f ≤ 1) (ha : 0 ≤ a) :
    f ≤ min 1 (f + a) ∧ 0 ≤ min 1 (f + a) ∧ min 1 (f + a) ≤ 1 :=
  ⟨le_min h1 (by linarith), le_min (by norm_num) (by linarith), min_le_left _ _⟩

lemma update_frustration_level_mono (p : UserPersona) (g : ConversationGoal)
    (hpat : p.patience ≤ 1) (htol : p.frustration_tolerance ≤ 1) (t : ConversationState)
    (h0 : 0 ≤ t.frustration_level) (h1 : t.frustration_level ≤ 1) :
    t.frustration_level ≤ (update_frustration_level p g t).frustration_level ∧
      0 ≤ (update_frustration_level p g t).frustration_level ∧
      (update_frustration_level p g t).frustration_level ≤ 1 := by
  have ha : (0 : ℚ) ≤ (1 - p.patience) * (1/10) := by nlinarith
  have hb : (0 : ℚ) ≤ (1 - p.frustration_tolerance) * (3/20) := by nlinarith
  unfold update_frustration_level
  dsimp only
  split_ifs with h h' h'
  · obtain ⟨x1, y1, z1⟩ := min_one_add_step t.frustration_level _ h0 h1 ha
    obtain ⟨x2, y2, z2⟩ := min_one_add_step _ _ y1 z1 hb
    exact ⟨le_trans x1 x2, y2, z2⟩
  · exact min_one_add_step t.frustration_level _ h0 h1 hb
  · exact min_one_add_step t.frustration_level _ h0 h1 ha
  · exact ⟨le_refl _, h0, h1⟩

lemma applyOp_frustration_step (p : UserPersona) (g : ConversationGoal)
    (hpat : p.patience ≤ 1) (htol : p.frustration_tolerance ≤ 1) (op : SimOp)
    (s : ConversationState) (h0 : 0 ≤ s.frustration_level) (h1 : s.frustration_level ≤ 1) :
    s.frustration_level ≤ (applyOp p g op s).frustration_level ∧
      0 ≤ (applyOp p g op s).frustration_level ∧ (applyOp p g op s).frustration_level ≤ 1 := by
  cases op with
  | ingest msg =>
    have h := update_frustration_level_mono p g hpat htol
      (update_goal_progress g
        { messages := s.messages ++ [⟨Role.assistant, msg, s.current_turn⟩],
          current_turn := s.current_turn + 1, goal_progress := s.goal_progress,
          user_satisfaction := s.user_satisfaction, frustration_level := s.frustration_level })
      h0 h1
    exact h
  | setSatisfaction v => exact ⟨le_refl _, h0, h1⟩

lemma statesFrom_head (p : UserPersona) (g : ConversationGoal) (ops : List SimOp)
    (s : ConversationState) : (statesFrom p g ops s).head? = some s := by
  cases ops <;> rfl

lemma statesFrom_chain (p : UserPersona) (g : ConversationGoal)
    (hpat : p.patience ≤ 1) (htol : p.frustration_tolerance ≤ 1) (ops : List SimOp) :
    ∀ s : ConversationState, 0 ≤ s.frustration_level → s.frustration_level ≤ 1 →
      List.Chain' (fun a b : ConversationState => a.frustration_level ≤ b.frustration_level)
          (statesFrom p g ops s) ∧
        ∀ st ∈ statesFrom p g ops s, 0 ≤ st.frustration_level ∧ st.frustration_level ≤ 1 := by
  induction ops with
  | nil =>
    intro s h0 h1
    refine ⟨List.chain'_singleton s, ?_⟩
    intro st hst
    simp only [statesFrom, List.mem_singleton] at hst
    subst hst
    exact ⟨h0, h1⟩
  | cons op rest ih =>
    intro s h0 h1
    obtain ⟨hmono, ha, hb⟩ := applyOp_frustration_step p g hpat htol op s h0 h1
    obtain ⟨hchain, hmem⟩ := ih (applyOp p g op s) ha hb
    constructor
    · show List.Chain' _ (s :: statesFrom p g rest (applyOp p g op s))
      rw [List.chain'_cons']
      refine ⟨?_, hchain⟩
      intro b hbmem
      rw [statesFrom_head] at hbmem
      cases hbmem
      exact hmono
    · intro st hst
      simp only [statesFrom, List.mem_cons] at hst
      rcases hst with h | h
      · subst h; exact ⟨h0, h1⟩
      · exact hmem st h

/-- C3: for every persona whose trait values all lie in `[0,1]` and every
sequence of assistant-message ingestions interleaved with arbitrary
(clamped) satisfaction updates, starting from the simulator's initial
state, `frustration_level` never decreases from one state to the next and
always remains in `[0,1]`. -/
theorem c3_frustration_monotone (p : UserPersona) (g : ConversationGoal)
    (hp : traits_in_unit p) (ops : List SimOp) :
    List.Chain' (fun a b : ConversationState => a.frustration_level ≤ b.frustration_level)
        (statesFrom p g ops initial_state) ∧
      ∀ st ∈ statesFrom p g ops initial_state,
        0 ≤ st.frustration_level ∧ st.frustration_level ≤ 1 :=
  statesFrom_chain p g hp.1.2 hp.2.2.2.1.2 ops initial_state
    (by norm_num [initial_state]) (by norm_num [initial_state])

/-- C3 witness. -/
theorem c3_witness :
    traits_in_unit persona_half ∧
      ∀ st ∈ statesFrom persona_half goal_two
          [SimOp.ingest "x", SimOp.setSatisfaction 2, SimOp.ingest "y"] initial_state,
        0 ≤ st.frustration_level ∧ st.frustration_level ≤ 1 := by
  have hp : traits_in_unit persona_half := by with_unfolding_all decide
  exact ⟨hp, (c3_frustration_monotone persona_half goal_two hp
    [SimOp.ingest "x", SimOp.setSatisfaction 2, SimOp.ingest "y"]).2⟩

/-! ### C4: stream error event stops the decoder -/

lemma loop_lines_append (parse : String → Option JVal) (pyStr : JVal → String)
    (l1 l2 : List String) : ∀ fr : String,
    loop_lines parse pyStr fr (l1 ++ l2) =
      match loop_lines parse pyStr fr l1 with
      | .ok fr' => loop_lines parse pyStr fr' l2
      | .errBreak fr' e => .errBreak fr' e
      | .exc => .exc := by
  induction l1 with
  | nil => intro fr; rfl
  | cons l ls ih =>
    intro fr
    simp only [List.cons_append, loop_lines]
    cases hpl : process_line parse pyStr fr l with
    | cont fr' => exact ih fr'
    | errStop fr' e => rfl
    | exc => rfl

/-- C4: if the decoder reaches a server-push (`data: `) line whose JSON
payload is an object with `type = "error"` and `errorText = e` (after any
prefix of lines processed without error or exception), it stops
immediately: the result is the error signal `e` no matter what lines
follow, and the accumulated partial text is discarded — the returned reply
text is empty. -/
theorem c4_error_event_stops (parse : String → Option JVal) (pyStr : JVal → String)
    (pre post : List String) (body : String) (fr line : String)
    (kvs : List (String × JVal)) (e : String)
    (hpre : loop_lines parse pyStr "" pre = .ok fr)
    (h0 : line ≠ "")
    (h1 : pyStartsWith line "0:" = false)
    (h2 : pyStartsWith line "data: " = true)
    (h3 : pyTrim (pyDropChars 6 line) ≠ "")
    (h4 : pyTrim (pyDropChars 6 line) ≠ "[DONE]")
    (h5 : parse (pyTrim (pyDropChars 6 line)) = some (JVal.obj kvs))
    (h6 : pyGet (JVal.obj kvs) "type" = some (JVal.str "error"))
    (h7 : pyGet (JVal.obj kvs) "errorText" = some (JVal.str e)) :
    decode_stream parse pyStr (pre ++ line :: post) body = ("", some (JVal.str e)) := by
  have hline : process_line parse pyStr fr line = .errStop fr (JVal.str e) := by
    unfold process_line
    rw [if_neg h0, if_neg (by simp [h1]), if_pos (by simp [h2]), if_pos ⟨h3, h4⟩, h5]
    simp only [isStrVal, h6, h7, beq_self_eq_true, if_pos, Option.getD_some]
  have hloop : loop_lines parse pyStr "" (pre ++ line :: post) = .errBreak fr (JVal.str e) := by
    rw [loop_lines_append parse pyStr pre (line :: post) "", hpre]
    show loop_lines parse pyStr fr (line :: post) = _
    unfold loop_lines
    rw [hline]
  unfold decode_stream
  rw [hloop]

/-- A concrete stand-in for `json.loads` used by the C4 witness: it parses
exactly the payload "ERRPAYLOAD" into an error event object. -/
def parse_err_only : String → Option JVal := fun s =>
  if s = "ERRPAYLOAD" then
    some (JVal.obj [("type", JVal.str "error"), ("errorText", JVal.str "boom")])
  else none

def py_str_empty : JVal → String := fun _ => ""

/-- C4 witness: a stream whose first event is the error event with
`errorText = "boom"`, followed by another line that is ignored. -/
theorem c4_witness :
    decode_stream parse_err_only py_str_empty ["data: ERRPAYLOAD", "data: IGNORED"] "partial"
      = ("", some (JVal.str "boom")) :=
  c4_error_event_stops parse_err_only py_str_empty [] ["data: IGNORED"] "partial" ""
    "data: ERRPAYLOAD" [("type", JVal.str "error"), ("errorText", JVal.str "boom")] "boom"
    rfl (by decide) (by decide) (by decide) (by decide) (by decide)
    (by with_unfolding_all rfl) rfl rfl

/-! ### C5: empty-accumulation fallback -/

/-- C5 counterexample: the claim says that when nothing was accumulated the
successful result equals the raw body (trimmed) whenever the body is
non-empty; but for the non-empty, all-whitespace body `" "` the code
returns the placeholder `"No response received"`, not the trimmed body
(which is empty). -/
theorem c5_counterexample :
    decode_stream parse_err_only py_str_empty [] " " = ("No response received", none) ∧
      "No response received" ≠ pyTrim " " := by
  constructor
  · with_unfolding_all rfl
  · decide

lemma strip_or_placeholder_ne (s : String) :
    (if pyTrim s = "" then "No response received" else pyTrim s) ≠ "" := by
  split_ifs with h
  · decide
  · exact h

/-- C5 (amended): if after consuming every line the accumulated text is
empty or whitespace, the successful result equals the raw response body
trimmed when the body is non-empty after trimming, and otherwise the
literal string "No response received"; and on every success path the
returned text is non-empty. -/
theorem c5_empty_fallback (parse : String → Option JVal) (pyStr : JVal → String)
    (lines : List String) (body : String) :
    (∀ fr, loop_lines parse pyStr "" lines = .ok fr → pyTrim fr = "" →
        decode_stream parse pyStr lines body =
          (if pyTrim body = "" then "No response received" else pyTrim body, none)) ∧
      ∀ t, decode_stream parse pyStr lines body = (t, none) → t ≠ "" := by
  constructor
  · intro fr hok htrim
    unfold decode_stream
    rw [hok]
    by_cases hb : body = ""
    · subst hb
      simp [htrim, show pyTrim "" = "" from rfl]
    · simp [htrim, hb]
  · intro t h
    unfold decode_stream at h
    cases hl : loop_lines parse pyStr "" lines with
    | ok fr =>
      rw [hl] at h
      simp only [Prod.mk.injEq] at h
      rw [← h.1]
      exact strip_or_placeholder_ne _
    | errBreak fr e =>
      rw [hl] at h
      simp only [Prod.mk.injEq] at h
      exact absurd h.2 (by simp)
    | exc =>
      rw [hl] at h
      simp only [Prod.mk.injEq] at h
      rw [← h.1]
      exact strip_or_placeholder_ne _

/-- C5 witness: no lines, body "hello" — the fallback returns the body. -/
theorem c5_witness :
    decode_stream parse_err_only py_str_empty [] "hello" = ("hello", none) ∧
      pyTrim "" = "" :=
  ⟨(c5_empty_fallback parse_err_only py_str_empty [] "hello").1 "" rfl rfl, rfl⟩

/-! ### C6: transport error conversion (code bug: the body is dropped) -/

/-- C6: at the failing input — a response with `ok = False`, status 500 and
a non-empty body — `send_message` returns the error
`"API responded with status 500"` without the body text: the enriched
exception built inside the inner `try` is caught by that `try`'s own
`except` and replaced by the status-only message, contradicting the
spec's "embeds the status code and, best-effort, the response body text".
The timeout and generic-exception conversions behave as the claim says. -/
theorem c6_status_error_drops_body :
    send_message parse_err_only py_str_empty
        (.resp false 500 "Internal Server Error details" []) =
      ("", some (JVal.str "API responded with status 500")) ∧
      hasSeq "Internal Server Error details".toList
        "API responded with status 500".toList = false ∧
      send_message parse_err_only py_str_empty .timeout =
        ("", some (JVal.str "Request timeout")) ∧
      send_message parse_err_only py_str_empty (.exn "connection reset") =
        ("", some (JVal.str "connection reset")) :=
  ⟨by with_unfolding_all rfl, by decide, rfl, rfl⟩

/-! ### C7: defensive parsing of the four-field user-turn contract -/

/-- C7 counterexample: the claim says parsing never fails hard, but a
`SATISFACTION:` line whose extracted `[\d.]+` token is not a valid float
literal (here `"..."`) makes `float()` raise an uncaught `ValueError`. -/
theorem c7_counterexample :
    parse_simulated_response "SATISFACTION: ..." = none := by
  with_unfolding_all rfl

lemma parse_sim_loop_ok (ls : List String) :
    ∀ st : String × Bool × ℚ,
      (∀ l ∈ ls, pyStartsWith l "SATISFACTION:" = true →
        ∀ t, pyFindNumRun l = some t → (pyFloatOfRun t).isSome) →
      (parse_sim_loop ls st).isSome := by
  induction ls with
  | nil => intro st _; simp [parse_sim_loop]
  | cons l rest ih =>
    rintro ⟨m, c, s⟩ h
    have hrest : ∀ l' ∈ rest, pyStartsWith l' "SATISFACTION:" = true →
        ∀ t, pyFindNumRun l' = some t → (pyFloatOfRun t).isSome :=
      fun l' hl' => h l' (List.mem_cons_of_mem _ hl')
    unfold parse_sim_loop
    split_ifs with h1 h2 h3
    · exact ih _ hrest
    · exact ih _ hrest
    · cases hfind : pyFindNumRun l with
      | none => simp only [hfind]; exact ih _ hrest
      | some t =>
        simp only [hfind]
        have hv := h l (List.mem_cons_self _ _) (by simpa using h3) t hfind
        cases hfl : pyFloatOfRun t with
        | none => rw [hfl] at hv; simp at hv
        | some v => simp only [hfl]; exact ih _ hrest
    · exact ih _ hrest

lemma parse_sim_loop_continue (ls : List String) :
    ∀ (m : String) (c : Bool) (s : ℚ) m' c' s',
      (∀ l ∈ ls, pyStartsWith l "CONTINUE:" = false) →
      parse_sim_loop ls (m, c, s) = some (m', c', s') → c' = c := by
  induction ls with
  | nil =>
    intro m c s m' c' s' _ h
    simp [parse_sim_loop] at h
    exact h.2.1.symm
  | cons l rest ih =>
    intro m c s m' c' s' hno h
    have hl : pyStartsWith l "CONTINUE:" = false := hno l (List.mem_cons_self _ _)
    have hrest : ∀ l' ∈ rest, pyStartsWith l' "CONTINUE:" = false :=
      fun l' hl' => hno l' (List.mem_cons_of_mem _ hl')
    unfold parse_sim_loop at h
    split_ifs at h with h1 h2 h3
    · exact ih _ _ _ _ _ _ hrest h
    · rw [h2] at hl; cases hl
    · cases hfind : pyFindNumRun l with
      | none => simp only [hfind] at h; exact ih _ _ _ _ _ _ hrest h
      | some t =>
        simp only [hfind] at h
        cases hfl : pyFloatOfRun t with
        | none => simp only [hfl] at h; exact Option.noConfusion h
        | some v => simp only [hfl] at h; exact ih _ _ _ _ _ _ hrest h
    · exact ih _ _ _ _ _ _ hrest h

lemma parse_sim_loop_satisfaction (ls : List String) :
    ∀ (m : String) (c : Bool) (s : ℚ) m' c' s',
      (∀ l ∈ ls, pyStartsWith l "SATISFACTION:" = true → pyFindNumRun l = none) →
      parse_sim_loop ls (m, c, s) = some (m', c', s') → s' = s := by
  induction ls with
  | nil =>
    intro m c s m' c' s' _ h
    simp [parse_sim_loop] at h
    exact h.2.2.symm
  | cons l rest ih =>
    intro m c s m' c' s' hno h
    have hrest : ∀ l' ∈ rest, pyStartsWith l' "SATISFACTION:" = true → pyFindNumRun l' = none :=
      fun l' hl' => hno l' (List.mem_cons_of_mem _ hl')
    unfold parse_sim_loop at h
    split_ifs at h with h1 h2 h3
    · exact ih _ _ _ _ _ _ hrest h
    · exact ih _ _ _ _ _ _ hrest h
    · have hfind : pyFindNumRun l = none :=
        hno l (List.mem_cons_self _ _) (by simpa using h3)
      rw [hfind] at h
      exact ih _ _ _ _ _ _ hrest h
    · exact ih _ _ _ _ _ _ hrest h

lemma parse_sim_loop_message (ls : List String) :
    ∀ (m : String) (c : Bool) (s : ℚ) m' c' s',
      (∀ l ∈ ls, pyStartsWith l "MESSAGE:" = false) →
      parse_sim_loop ls (m, c, s) = some (m', c', s') → m' = m := by
  induction ls with
  | nil =>
    intro m c s m' c' s' _ h
    simp [parse_sim_loop] at h
    exact h.1.symm
  | cons l rest ih =>
    intro m c s m' c' s' hno h
    have hl : pyStartsWith l "MESSAGE:" = false := hno l (List.mem_cons_self _ _)
    have hrest : ∀ l' ∈ rest, pyStartsWith l' "MESSAGE:" = false :=
      fun l' hl' => hno l' (List.mem_cons_of_mem _ hl')
    unfold parse_sim_loop at h
    split_ifs at h with h1 h2 h3
    · rw [h1] at hl; cases hl
    · exact ih _ _ _ _ _ _ hrest h
    · cases hfind : pyFindNumRun l with
      | none => simp only [hfind] at h; exact ih _ _ _ _ _ _ hrest h
      | some t =>
        simp only [hfind] at h
        cases hfl : pyFloatOfRun t with
        | none => simp only [hfl] at h; exact Option.noConfusion h
        | some v => simp only [hfl] at h; exact ih _ _ _ _ _ _ hrest h
    · exact ih _ _ _ _ _ _ hrest h

/-- C7 (amended): for every LLM output text whose `SATISFACTION:` lines'
extracted digit/dot tokens (when present) are valid float literals,
parsing succeeds and applies the documented defaults: a text with no
`CONTINUE:` line yields `should_continue = true`; a text whose
`SATISFACTION:` lines are missing or yield no numeric token leaves
`satisfaction = 0.5`; a text with no `MESSAGE:` line yields the empty
string as the next user message.  (A `SATISFACTION:` line whose extracted
token is not a valid float — e.g. `"SATISFACTION: ..."` — instead raises
an uncaught `ValueError`.) -/
theorem c7_parse_defaults (content : String) :
    ((∀ l ∈ pySplitNl content, pyStartsWith l "SATISFACTION:" = true →
        ∀ t, pyFindNumRun l = some t → (pyFloatOfRun t).isSome) →
      (parse_simulated_response content).isSome) ∧
    ∀ m c s, parse_simulated_response content = some (m, c, s) →
      ((∀ l ∈ pySplitNl content, pyStartsWith l "CONTINUE:" = false) → c = true) ∧
      ((∀ l ∈ pySplitNl content, pyStartsWith l "SATISFACTION:" = true →
          pyFindNumRun l = none) → s = 1/2) ∧
      ((∀ l ∈ pySplitNl content, pyStartsWith l "MESSAGE:" = false) → m = "") := by
  constructor
  · exact fun h => parse_sim_loop_ok (pySplitNl content) ("", true, 1/2) h
  · intro m c s h
    refine ⟨fun hno => ?_, fun hno => ?_, fun hno => ?_⟩
    · exact parse_sim_loop_continue (pySplitNl content) _ _ _ _ _ _ hno h
    · exact parse_sim_loop_satisfaction (pySplitNl content) _ _ _ _ _ _ hno h
    · exact parse_sim_loop_message (pySplitNl content) _ _ _ _ _ _ hno h

/-- C7 witness: a reply with only a `MESSAGE:` line parses successfully to
the default `should_continue = true` and `satisfaction = 0.5`. -/
theorem c7_witness :
    parse_simulated_response "MESSAGE: hi" = some ("hi", true, 1/2) ∧
      (parse_simulated_response "MESSAGE: hi").isSome := by
  refine ⟨by with_unfolding_all rfl, (c7_parse_defaults "MESSAGE: hi").1 ?_⟩
  intro l hl hsat
  exfalso
  have hls : pySplitNl "MESSAGE: hi" = ["MESSAGE: hi"] := by with_unfolding_all rfl
  rw [hls] at hl
  simp only [List.mem_singleton] at hl
  subst hl
  exact absurd hsat (by decide)

/-! ### C8: overall score formula -/

/-- C8: for every `EvaluationMetrics` input, `_calculate_overall_score`
returns exactly the weighted sum
`0.20*[goal_achieved] + 0.15*satisfaction + 0.15*clarity + 0.15*relevance
+ 0.15*completeness + 0.15*politeness - 0.05*error_rate
- 0.02*frustration_incidents`, clamped into `[0,1]`. -/
theorem c8_overall_score_formula (m : EvaluationMetrics) :
    calculate_overall_score m =
      max 0 (min 1
        (0.20 * (if m.goal_achieved then (1 : ℚ) else 0) +
          0.15 * m.user_satisfaction_score + 0.15 * m.clarity_score +
          0.15 * m.relevance_score + 0.15 * m.completeness_score +
          0.15 * m.politeness_score - 0.05 * m.error_rate -
          0.02 * (m.frustration_incidents : ℚ))) := by
  unfold calculate_overall_score
  cases hga : m.goal_achieved <;> (norm_num; congr 2; ring)

/-! ### C9: aggregation of a singleton list -/

lemma pyRound_intCast (n : ℤ) : pyRound ((n : ℤ) : ℚ) = n := by
  unfold pyRound
  rw [Int.floor_intCast]
  norm_num

/-- C9: aggregating a one-element metrics list returns metrics numerically
identical to the input in every numeric field, preserving `goal_achieved`
exactly in both branches (`1/1 ≥ 0.5`, `0/1 < 0.5`) and
`frustration_incidents` through the rounded mean. -/
theorem c9_aggregate_singleton (m : EvaluationMetrics) :
    ∃ a, aggregate_metrics [m] = some a ∧
      a.goal_achieved = m.goal_achieved ∧
      a.total_turns = m.total_turns ∧
      a.average_response_time = m.average_response_time ∧
      a.user_satisfaction_score = m.user_satisfaction_score ∧
      a.clarity_score = m.clarity_score ∧
      a.relevance_score = m.relevance_score ∧
      a.completeness_score = m.completeness_score ∧
      a.politeness_score = m.politeness_score ∧
      a.frustration_incidents = m.frustration_incidents ∧
      a.error_rate = m.error_rate := by
  refine ⟨_, rfl, ?_, ?_, ?_, ?_, ?_, ?_, ?_, ?_, ?_, ?_⟩
  · dsimp only
    cases hga : m.goal_achieved
    · have h1 : [m].countP (fun x => x.goal_achieved) = 0 := by
        simp [List.countP_cons, hga]
      rw [h1]
      simp only [List.length_singleton, Nat.cast_one, Nat.cast_zero, zero_div,
        ge_iff_le, decide_eq_false_iff_not, not_le]
      norm_num
    · have h1 : [m].countP (fun x => x.goal_achieved) = 1 := by
        simp [List.countP_cons, hga]
      rw [h1]
      simp only [List.length_singleton, Nat.cast_one, div_one, ge_iff_le,
        decide_eq_true_eq]
      norm_num
  · dsimp only
    simp only [List.map_cons, List.map_nil, List.sum_cons, List.sum_nil, add_zero,
      List.length_singleton, Nat.cast_one, div_one]
    exact pyRound_intCast m.total_turns
  · dsimp only
    simp
  · dsimp only
    simp
  · dsimp only
    simp
  · dsimp only
    simp
  · dsimp only
    simp
  · dsimp only
    simp
  · dsimp only
    simp only [List.map_cons, List.map_nil, List.sum_cons, List.sum_nil, add_zero,
      List.length_singleton, Nat.cast_one, div_one]
    exact pyRound_intCast m.frustration_incidents
  · dsimp only
    simp

/-! ### C10: the assistant reply is recorded twice per loop iteration -/

/-- C10: after every successful loop iteration of the orchestrator, the
transcript contains the assistant's reply twice, as two consecutive
assistant messages with identical content and identical turn number: once
appended by `add_assistant_message` and once appended again by
`generate_response`'s internal `_update_state` ingestion of the same
text. -/
theorem c10_duplicate_assistant (p : UserPersona) (g : ConversationGoal)
    (resp llm : String) (s s' : ConversationState)
    (h : runner_iteration p g resp llm s = some s') :
    s'.messages[s.messages.length]? = some ⟨Role.assistant, resp, s.current_turn⟩ ∧
      s'.messages[s.messages.length + 1]? = some ⟨Role.assistant, resp, s.current_turn⟩ := by
  unfold runner_iteration at h
  cases hp : parse_simulated_response llm with
  | none => rw [hp] at h; exact Option.noConfusion h
  | some r =>
    obtain ⟨m, c, sat⟩ := r
    rw [hp] at h
    dsimp only at h
    have hs' : s'.messages =
        s.messages ++ ⟨Role.assistant, resp, s.current_turn⟩ ::
          ⟨Role.assistant, resp, s.current_turn⟩ ::
            (if m ≠ "" then [⟨Role.user, m, s.current_turn + 1⟩] else []) := by
      have := Option.some.inj h
      subst this
      by_cases hm : m = ""
      · simp only [hm, ne_eq, not_true_eq_false, if_false, ite_false]
        simp [update_satisfaction, update_state, update_goal_progress,
          update_frustration_level, add_assistant_message, add_user_message]
      · simp only [ne_eq, hm, not_false_eq_true, if_true, ite_true]
        simp [update_satisfaction, update_state, update_goal_progress,
          update_frustration_level, add_assistant_message, add_user_message]
    rw [hs']
    constructor
    · rw [List.getElem?_append_right (le_refl s.messages.length)]
      simp
    · rw [List.getElem?_append_right (by omega : s.messages.length ≤ s.messages.length + 1)]
      simp

/-- C10 witness: one concrete successful iteration starting from the
initial state. -/
theorem c10_witness :
    ((runner_iteration persona_half goal_two "hello" "MESSAGE: ok" initial_state).getD
        initial_state).messages[initial_state.messages.length]? =
      some ⟨Role.assistant, "hello", initial_state.current_turn⟩ :=
  (c10_duplicate_assistant persona_half goal_two "hello" "MESSAGE: ok" initial_state
    ((runner_iteration persona_half goal_two "hello" "MESSAGE: ok" initial_state).getD
      initial_state)
    (by with_unfolding_all rfl)).1
